import Mathlib

/-!
Shallow embedding of `src/linux/biometric_storage_plugin.cc` from
authpass/biometric_storage (the Linux Flutter plugin).

The embedding models:
* `FlValue` — the Flutter standard-codec value type, restricted to the
  constructors the plugin touches (null, bool, int, string, map).
* the `fl_value_*` accessors with their documented NULL behaviour
  (`g_return_val_if_fail` makes them return NULL / FALSE / the null type
  on a NULL pointer or a type mismatch instead of crashing);
* the treatment by `g_strdup_printf` of a NULL `%s` argument (glib
  prints the literal `(null)`);
* the method-call handler `biometric_storage_plugin_handle_method_call`
  as a pure function from (method name, argument value) to the list of
  synchronous responses it sends plus the backend call it issues, if any
  (`g_object_ref` on the call handle is counted in `refs`);
* the three libsecret completion callbacks `on_password_stored`,
  `on_password_cleared`, `on_password_lookup` as pure functions from the
  backend completion result to the responses they send, the warnings
  they log, and the `g_object_unref` calls they make on the handle;
* the libsecret backend itself, which is not part of this repository, as
  a finite key/value store (see `SecretStore`, modelled from the spec).
-/

namespace BiometricStorage

/-- The subset of the Flutter standard-codec values used by the plugin. -/
inductive FlValue where
  | vnull
  | vbool (b : Bool)
  | vint (i : Int)
  | vstring (s : String)
  | vmap (entries : List (String × FlValue))

/-- The `FlValueType` enumeration, restricted to the types the plugin inspects. -/
inductive FlValueType where
  | tnull
  | tbool
  | tint
  | tstring
  | tmap
deriving DecidableEq, Repr

/-- Embeds `fl_value_get_type`: on a NULL pointer `g_return_val_if_fail`
returns `FL_VALUE_TYPE_NULL`. A possibly-NULL `FlValue*` is modelled as
`Option FlValue`. -/
def fl_value_get_type : Option FlValue → FlValueType
  | none => FlValueType.tnull
  | some FlValue.vnull => FlValueType.tnull
  | some (FlValue.vbool _) => FlValueType.tbool
  | some (FlValue.vint _) => FlValueType.tint
  | some (FlValue.vstring _) => FlValueType.tstring
  | some (FlValue.vmap _) => FlValueType.tmap

/-- Embeds `fl_value_lookup_string`: returns NULL when the receiver is NULL or
not a map, or when the key is absent; otherwise the first entry whose
key equals the given string. -/
def fl_value_lookup_string : Option FlValue → String → Option FlValue
  | some (FlValue.vmap entries), key =>
      (entries.find? (fun e => e.1 = key)).map (fun e => e.2)
  | _, _ => none

/-- Embeds `fl_value_get_string`: returns NULL when the receiver is NULL or not
a string. -/
def fl_value_get_string : Option FlValue → Option String
  | some (FlValue.vstring s) => some s
  | _ => none

/-- Embeds `fl_value_get_bool`: returns FALSE when the receiver is NULL or not
a bool. -/
def fl_value_get_bool : Option FlValue → Bool
  | some (FlValue.vbool b) => b
  | _ => false

/-- The glib `printf` renders a NULL `%s` argument as the literal string
`(null)`. -/
def printf_s : Option String → String
  | some s => s
  | none => "(null)"

def kBadArgumentsError : String := "Bad Arguments"
def kSecurityAccessError : String := "Security Access Error"
def kMethodRead : String := "read"
def kMethodWrite : String := "write"
def kMethodDelete : String := "delete"
def kNamePrefix : String := "design.codeux.authpass"

/-- The `METHOD_PARAM_NAME` macro:
`g_strdup_printf("%s.%s", kNamePrefix, fl_value_get_string(fl_value_lookup_string(args, "name")))`. -/
def method_param_name (args : FlValue) : String :=
  kNamePrefix ++ "." ++ printf_s (fl_value_get_string (fl_value_lookup_string (some args) "name"))

/-- A `GError`: the domain quark rendered as a string, the numeric code
and the message. -/
structure GError where
  domain : String
  code : Int
  message : String
deriving DecidableEq, Repr

/-- The method responses the plugin builds (`fl_method_success_response_new`,
`fl_method_error_response_new`, `fl_method_not_implemented_response_new`).
The details argument of an error response may be NULL. -/
inductive FlMethodResponse where
  | success (result : FlValue)
  | error (code : String) (message : String) (details : Option FlValue)
  | not_implemented

/-- Embeds `_handle_error`: builds the "Security Access Error" response whose
message is `g_strdup_printf("%s: %s (%d) (%s)", message, error->message,
error->code, domain)`, with details map {domain, code, message}; the
second component is the text passed to `g_warning`. -/
def handle_error_ (message : String) (error : GError) : FlMethodResponse × String :=
  let domain := error.domain
  let error_message :=
    message ++ ": " ++ error.message ++ " (" ++ toString error.code ++ ") (" ++ domain ++ ")"
  let error_details := FlValue.vmap
    [("domain", FlValue.vstring domain),
     ("code", FlValue.vint error.code),
     ("message", FlValue.vstring error.message)]
  (FlMethodResponse.error kSecurityAccessError error_message (some error_details), error_message)

/-- What one completion callback does: the responses it sends through
`fl_method_call_respond`, the texts it logs with `g_warning`, and the
number of `g_object_unref` calls it makes on the call handle. -/
structure CallbackOutcome where
  responses : List FlMethodResponse
  warnings : List String
  unrefs : Nat

/-- Embeds `on_password_stored`: the completion of `secret_password_store`
carries either a `GError` or success. -/
def on_password_stored : Except GError Unit → CallbackOutcome
  | Except.error e =>
      let he := handle_error_ ("Failed to store secret") e
      { responses := [he.1], warnings := [he.2], unrefs := 1 }
  | Except.ok _ =>
      { responses := [FlMethodResponse.success (FlValue.vbool true)],
        warnings := [], unrefs := 1 }

/-- Embeds `on_password_cleared`: the completion of `secret_password_clear`
carries either a `GError` or the `removed` boolean. -/
def on_password_cleared : Except GError Bool → CallbackOutcome
  | Except.error e =>
      let he := handle_error_ ("Failed to delete secret") e
      { responses := [he.1], warnings := [he.2], unrefs := 1 }
  | Except.ok removed =>
      { responses := [FlMethodResponse.success (FlValue.vbool removed)],
        warnings := [], unrefs := 1 }

/-- Embeds `on_password_lookup`: the completion of `secret_password_lookup`
carries either a `GError` or the password (NULL when no matching entry
was found). -/
def on_password_lookup : Except GError (Option String) → CallbackOutcome
  | Except.error e =>
      let he := handle_error_ ("Failed to lookup secret") e
      { responses := [he.1], warnings := [he.2], unrefs := 1 }
  | Except.ok none =>
      { responses := [FlMethodResponse.success FlValue.vnull],
        warnings := ["Failed to lookup password (not found)."], unrefs := 1 }
  | Except.ok (some password) =>
      { responses := [FlMethodResponse.success (FlValue.vstring password)],
        warnings := [], unrefs := 1 }

/-- Embeds `handleInit`. -/
def handleInit (args : FlValue) : FlMethodResponse :=
  let options := fl_value_lookup_string (some args) "options"
  if fl_value_get_type options ≠ FlValueType.tmap then
    FlMethodResponse.error kBadArgumentsError ("Argument map missing or malformed") none
  else
    let authRequired := fl_value_lookup_string options ("authenticationRequired")
    if fl_value_get_bool authRequired then
      FlMethodResponse.error kBadArgumentsError
        ("Linux plugin only supports non-authenticated secure storage") none
    else
      FlMethodResponse.success (FlValue.vbool true)

/-- The asynchronous backend call issued by the handler, with the
credential identifier (the schema attribute "name") and, for store, the
possibly-NULL content pointer. -/
inductive BackendCall where
  | store (name : String) (content : Option String)
  | lookup (name : String)
  | clear (name : String)
deriving DecidableEq, Repr

/-- What the handler does on the issuing path: the synchronous responses
it sends, the number of `g_object_ref` calls it makes on the call handle
(the retention across the asynchronous boundary), and the backend call
it issues, if any. -/
structure DispatchOutcome where
  responses : List FlMethodResponse
  refs : Nat
  call : Option BackendCall

/-- Embeds `biometric_storage_plugin_handle_method_call`: dispatch on the
method name. For write/read/delete the C function does `g_object_ref`
and returns before the final `fl_method_call_respond`, so the issuing
path sends no response; every other branch falls through to exactly one
`fl_method_call_respond`. -/
def biometric_storage_plugin_handle_method_call
    (method : String) (args : FlValue) : DispatchOutcome :=
  if method = "canAuthenticate" then
    { responses := [FlMethodResponse.success (FlValue.vstring ("ErrorHwUnavailable"))],
      refs := 0, call := none }
  else if method = "init" then
    { responses := [handleInit args], refs := 0, call := none }
  else if method = kMethodWrite then
    let name := method_param_name args
    let content := fl_value_get_string (fl_value_lookup_string (some args) "content")
    { responses := [], refs := 1, call := some (BackendCall.store name content) }
  else if method = kMethodRead then
    let name := method_param_name args
    { responses := [], refs := 1, call := some (BackendCall.lookup name) }
  else if method = kMethodDelete then
    let name := method_param_name args
    { responses := [], refs := 1, call := some (BackendCall.clear name) }
  else
    { responses := [FlMethodResponse.not_implemented], refs := 0, call := none }

/-- Modelled from the spec: the OS secret-storage backend (libsecret) is
not part of this repository; the spec fixes its interface as async
`store(schema, attributes, secret) → ok/error`,
`lookup(schema, attributes) → secret|not-found/error`,
`clear(schema, attributes) → removed:bool/error`, keyed by the single schema
string attribute "name". Its error-free state is a finite map
from that attribute to the stored secret. -/
abbrev SecretStore := List (String × String)

/-- Modelled from the spec: backend `store` — associates the secret with
the credential identifier, replacing any previous entry. -/
def secret_store_store (st : SecretStore) (name content : String) : SecretStore :=
  (name, content) :: st.filter (fun e => e.1 ≠ name)

/-- Modelled from the spec: backend `lookup` — the secret associated
with the credential identifier, or not-found. -/
def secret_store_lookup (st : SecretStore) (name : String) : Option String :=
  (st.find? (fun e => e.1 = name)).map (fun e => e.2)

/-- Modelled from the spec: backend `clear` — removes the entry for the
credential identifier and reports whether one actually existed. -/
def secret_store_clear (st : SecretStore) (name : String) : Bool × SecretStore :=
  (st.any (fun e => e.1 = name), st.filter (fun e => e.1 ≠ name))

/-- Modelled from the spec: running one issued backend call against an
error-free backend, yielding the new backend state and the outcome of the
callback. A store call whose content pointer is NULL falls outside the
backend interface fixed by the spec and is given no semantics (`none`). -/
def run_backend_call (st : SecretStore) : BackendCall → Option (SecretStore × CallbackOutcome)
  | BackendCall.store name (some content) =>
      some (secret_store_store st name content, on_password_stored (Except.ok ()))
  | BackendCall.store _ none => none
  | BackendCall.lookup name =>
      some (st, on_password_lookup (Except.ok (secret_store_lookup st name)))
  | BackendCall.clear name =>
      some ((secret_store_clear st name).2,
            on_password_cleared (Except.ok (secret_store_clear st name).1))

/-- Modelled from the spec: one full inbound call run to quiescence
against an error-free backend: the synchronous responses followed by the
response of the completion callback, if a backend call was issued. -/
def run_method_call (st : SecretStore) (method : String) (args : FlValue) :
    SecretStore × List FlMethodResponse :=
  let d := biometric_storage_plugin_handle_method_call method args
  match d.call with
  | none => (st, d.responses)
  | some c =>
      match run_backend_call st c with
      | some (st2, cb) => (st2, d.responses ++ cb.responses)
      | none => (st, d.responses)

/-- Argument map of a well-formed `write` call. -/
def write_args (name content : String) : FlValue :=
  FlValue.vmap [("name", FlValue.vstring name), ("content", FlValue.vstring content)]

/-- Argument map of a well-formed `read` or `delete` call. -/
def name_args (name : String) : FlValue :=
  FlValue.vmap [("name", FlValue.vstring name)]

/-- C9: `canAuthenticate` always responds synchronously with success of
the fixed string "ErrorHwUnavailable", regardless of its arguments and
of any prior backend state, issues no backend call, and leaves the
stored secrets unchanged. -/
theorem can_authenticate_fixed_response (st : SecretStore) (args : FlValue) :
    run_method_call st ("canAuthenticate") args =
      (st, [FlMethodResponse.success (FlValue.vstring ("ErrorHwUnavailable"))])
    ∧ (biometric_storage_plugin_handle_method_call ("canAuthenticate") args).call = none
    ∧ (biometric_storage_plugin_handle_method_call ("canAuthenticate") args).responses =
        [FlMethodResponse.success (FlValue.vstring ("ErrorHwUnavailable"))] :=
  ⟨rfl, rfl, rfl⟩

/-- C4: for every short name `n` supplied in the arguments of write,
read, or delete, the credential identifier used for the backend call is
the fixed prefix "design.codeux.authpass" followed by "." followed by
`n`; the mapping depends only on `n` and is the same in all three
operations. -/
theorem name_resolution_namespaced (args : FlValue) (n : String)
    (h : fl_value_lookup_string (some args) ("name") = some (FlValue.vstring n)) :
    method_param_name args = kNamePrefix ++ "." ++ n
    ∧ (∃ c, (biometric_storage_plugin_handle_method_call ("write") args).call
          = some (BackendCall.store (kNamePrefix ++ "." ++ n) c))
    ∧ (biometric_storage_plugin_handle_method_call ("read") args).call
        = some (BackendCall.lookup (kNamePrefix ++ "." ++ n))
    ∧ (biometric_storage_plugin_handle_method_call ("delete") args).call
        = some (BackendCall.clear (kNamePrefix ++ "." ++ n)) := by
  simp [biometric_storage_plugin_handle_method_call, kMethodWrite, kMethodRead, kMethodDelete,
    method_param_name, h, fl_value_get_string, printf_s]

/-- Witness for C4 at the concrete short name "vault1". -/
theorem name_resolution_namespaced_witness :
    method_param_name (name_args ("vault1")) = kNamePrefix ++ "." ++ "vault1"
    ∧ (biometric_storage_plugin_handle_method_call ("read") (name_args ("vault1"))).call
        = some (BackendCall.lookup (kNamePrefix ++ "." ++ "vault1")) :=
  ⟨(name_resolution_namespaced (name_args ("vault1")) ("vault1") rfl).1,
   (name_resolution_namespaced (name_args ("vault1")) ("vault1") rfl).2.2.1⟩

/-- C5: against an error-free backend, write(name, content) responds
success(true), and a subsequent read(name) with no interleaving write or
delete on that name responds success(content). -/
theorem write_read_round_trip (st : SecretStore) (n content : String) :
    (run_method_call st ("write") (write_args n content)).2
      = [FlMethodResponse.success (FlValue.vbool true)]
    ∧ (run_method_call (run_method_call st ("write") (write_args n content)).1 ("read")
        (name_args n)).2
      = [FlMethodResponse.success (FlValue.vstring content)] := by
  constructor <;>
    simp [run_method_call, biometric_storage_plugin_handle_method_call,
      kMethodWrite, kMethodRead, kMethodDelete,
      write_args, name_args, method_param_name, fl_value_lookup_string, fl_value_get_string,
      printf_s, List.find?, run_backend_call, on_password_stored, on_password_lookup,
      secret_store_store, secret_store_lookup]

/-- C6: read(name) whose backend lookup completes without error, on a
name whose entry is absent from the backend, responds success(null) — a
successful response carrying null, not an error response. -/
theorem read_absent_returns_null (st : SecretStore) (n : String)
    (h : ∀ e ∈ st, e.1 ≠ kNamePrefix ++ "." ++ n) :
    (run_method_call st ("read") (name_args n)).2
      = [FlMethodResponse.success FlValue.vnull] := by
  have hfind : st.find? (fun e => e.1 = kNamePrefix ++ "." ++ n) = none := by
    rw [List.find?_eq_none]
    intro x hx
    simpa using h x hx
  simp [run_method_call, biometric_storage_plugin_handle_method_call,
    kMethodWrite, kMethodRead, kMethodDelete,
    name_args, method_param_name, fl_value_lookup_string, fl_value_get_string, printf_s,
    List.find?, run_backend_call, on_password_lookup, secret_store_lookup, hfind]

/-- Witness for C6 on the empty backend at the short name "vault1". -/
theorem read_absent_returns_null_witness :
    (run_method_call [] ("read") (name_args ("vault1"))).2
      = [FlMethodResponse.success FlValue.vnull] :=
  read_absent_returns_null [] ("vault1") (by simp)

/-- C7: delete(name) whose backend clear completes without error
responds success(b) where b reflects whether an entry actually existed:
deleting a just-written entry responds success(true), and deleting a
name with no entry in the backend responds success(false) — never an
error. -/
theorem delete_reports_existence (st st2 : SecretStore) (n content : String)
    (h : ∀ e ∈ st2, e.1 ≠ kNamePrefix ++ "." ++ n) :
    (run_method_call (run_method_call st ("write") (write_args n content)).1 ("delete")
        (name_args n)).2
      = [FlMethodResponse.success (FlValue.vbool true)]
    ∧ (run_method_call st2 ("delete") (name_args n)).2
      = [FlMethodResponse.success (FlValue.vbool false)] := by
  have hany : st2.any (fun e => e.1 = kNamePrefix ++ "." ++ n) = false := by
    rw [Bool.eq_false_iff]
    intro hc
    rw [List.any_eq_true] at hc
    obtain ⟨x, hx, hpx⟩ := hc
    exact h x hx (by simpa using hpx)
  constructor <;>
    simp [run_method_call, biometric_storage_plugin_handle_method_call,
      kMethodWrite, kMethodRead, kMethodDelete,
      write_args, name_args, method_param_name, fl_value_lookup_string, fl_value_get_string,
      printf_s, List.find?, run_backend_call, on_password_stored, on_password_cleared,
      secret_store_store, secret_store_clear, hany]

/-- Witness for C7 on the empty backend at the short name "vault1". -/
theorem delete_reports_existence_witness :
    (run_method_call (run_method_call [] ("write") (write_args ("vault1") ("secret-xyz"))).1
        ("delete") (name_args ("vault1"))).2
      = [FlMethodResponse.success (FlValue.vbool true)]
    ∧ (run_method_call [] ("delete") (name_args ("vault1"))).2
      = [FlMethodResponse.success (FlValue.vbool false)] :=
  delete_reports_existence [] [] ("vault1") ("secret-xyz") (by simp)

/-- C1: every inbound method call receives exactly one response for its
call handle. When no backend call is issued the issuing path sends
exactly one synchronous response and does not retain the handle; a
backend call is issued exactly for write, read and delete, and then the
issuing path sends no synchronous response and retains the handle
(`g_object_ref`), while each completion callback sends exactly one
response and releases the handle (`g_object_unref`) exactly once — also
when the backend call fails. -/
theorem exactly_one_response_per_call (method : String) (args : FlValue) :
    ((biometric_storage_plugin_handle_method_call method args).call = none →
      (biometric_storage_plugin_handle_method_call method args).responses.length = 1
      ∧ (biometric_storage_plugin_handle_method_call method args).refs = 0)
    ∧ ((biometric_storage_plugin_handle_method_call method args).call.isSome →
      (biometric_storage_plugin_handle_method_call method args).responses = []
      ∧ (biometric_storage_plugin_handle_method_call method args).refs = 1)
    ∧ ((biometric_storage_plugin_handle_method_call method args).call.isSome ↔
        method = kMethodWrite ∨ method = kMethodRead ∨ method = kMethodDelete)
    ∧ (∀ r, (on_password_stored r).responses.length = 1 ∧ (on_password_stored r).unrefs = 1)
    ∧ (∀ r, (on_password_lookup r).responses.length = 1 ∧ (on_password_lookup r).unrefs = 1)
    ∧ (∀ r, (on_password_cleared r).responses.length = 1 ∧ (on_password_cleared r).unrefs = 1) := by
  refine ⟨?_, ?_, ?_, ?_, ?_, ?_⟩
  · unfold biometric_storage_plugin_handle_method_call
    split_ifs <;> simp
  · unfold biometric_storage_plugin_handle_method_call
    split_ifs <;> simp
  · unfold biometric_storage_plugin_handle_method_call
    split_ifs with h1 h2 h3 h4 h5 <;> simp_all [kMethodWrite, kMethodRead, kMethodDelete]
  · intro r
    cases r <;> simp [on_password_stored]
  · intro r
    cases r with
    | error e => simp [on_password_lookup]
    | ok v => cases v <;> simp [on_password_lookup]
  · intro r
    cases r <;> simp [on_password_cleared]

/-- Witness for C1: a synchronous operation (init) gets exactly one
synchronous response with no retention, and an asynchronous operation
(write) gets no synchronous response and one retention. -/
theorem exactly_one_response_per_call_witness :
    ((biometric_storage_plugin_handle_method_call ("init") FlValue.vnull).responses.length = 1
      ∧ (biometric_storage_plugin_handle_method_call ("init") FlValue.vnull).refs = 0)
    ∧ ((biometric_storage_plugin_handle_method_call ("write") FlValue.vnull).responses = []
      ∧ (biometric_storage_plugin_handle_method_call ("write") FlValue.vnull).refs = 1) :=
  ⟨(exactly_one_response_per_call ("init") FlValue.vnull).1 rfl,
   (exactly_one_response_per_call ("write") FlValue.vnull).2.1 rfl⟩

/-- C2 counterexample: a read call with no "name" argument is not
rejected synchronously with BadArguments — the issuing path sends no
response at all and still issues the backend lookup, with the glib
rendering "(null)" of the NULL name embedded in the credential
identifier. -/
theorem validation_missing_name_counterexample :
    (biometric_storage_plugin_handle_method_call ("read") (FlValue.vmap [])).responses = []
    ∧ (biometric_storage_plugin_handle_method_call ("read") (FlValue.vmap [])).call
        = some (BackendCall.lookup ("design.codeux.authpass.(null)"))
    ∧ (biometric_storage_plugin_handle_method_call ("read") (FlValue.vmap [])).call.isSome
        = true :=
  ⟨rfl, rfl, rfl⟩

/-- C2 amended: only init validates its arguments — init with the
options map absent or not a map fails synchronously with BadArguments
and issues no backend call; write, read and delete perform no argument
validation: even when the "name" argument is missing or not a string
they send no synchronous response and issue the backend call, with the
literal "(null)" substituted for the missing name in the credential
identifier. -/
theorem only_init_validates_arguments (args : FlValue) :
    (fl_value_get_type (fl_value_lookup_string (some args) ("options")) ≠ FlValueType.tmap →
      biometric_storage_plugin_handle_method_call ("init") args =
        { responses := [FlMethodResponse.error kBadArgumentsError
            ("Argument map missing or malformed") none],
          refs := 0, call := none })
    ∧ (fl_value_get_string (fl_value_lookup_string (some args) ("name")) = none →
        ((biometric_storage_plugin_handle_method_call ("write") args).responses = []
          ∧ (∃ c, (biometric_storage_plugin_handle_method_call ("write") args).call
              = some (BackendCall.store (kNamePrefix ++ ".(null)") c)))
        ∧ ((biometric_storage_plugin_handle_method_call ("read") args).responses = []
          ∧ (biometric_storage_plugin_handle_method_call ("read") args).call
              = some (BackendCall.lookup (kNamePrefix ++ ".(null)")))
        ∧ ((biometric_storage_plugin_handle_method_call ("delete") args).responses = []
          ∧ (biometric_storage_plugin_handle_method_call ("delete") args).call
              = some (BackendCall.clear (kNamePrefix ++ ".(null)")))) := by
  constructor
  · intro h
    simp [biometric_storage_plugin_handle_method_call, handleInit, h]
  · intro h
    refine ⟨⟨?_, ?_⟩, ⟨?_, ?_⟩, ⟨?_, ?_⟩⟩ <;>
      simp [biometric_storage_plugin_handle_method_call,
        kMethodWrite, kMethodRead, kMethodDelete, kNamePrefix,
        method_param_name, h, printf_s]

/-- Witness for C2 amended at the empty argument map. -/
theorem only_init_validates_arguments_witness :
    biometric_storage_plugin_handle_method_call ("init") (FlValue.vmap []) =
      { responses := [FlMethodResponse.error kBadArgumentsError
          ("Argument map missing or malformed") none],
        refs := 0, call := none }
    ∧ (biometric_storage_plugin_handle_method_call ("read") (FlValue.vmap [])).call
        = some (BackendCall.lookup (kNamePrefix ++ ".(null)")) :=
  ⟨(only_init_validates_arguments (FlValue.vmap [])).1 (by decide),
   ((only_init_validates_arguments (FlValue.vmap [])).2 rfl).2.1.2⟩

/-- C3: init with options.authenticationRequired = true always responds
with a BadArguments error whose message says only non-authenticated
storage is supported; with authenticationRequired = false or absent it
always responds success(true); with the options map absent or of the
wrong shape it responds with a BadArguments error. -/
theorem init_guard_authentication_required (args : FlValue) (m : List (String × FlValue)) :
    (fl_value_get_type (fl_value_lookup_string (some args) ("options")) ≠ FlValueType.tmap →
      (biometric_storage_plugin_handle_method_call ("init") args).responses =
        [FlMethodResponse.error kBadArgumentsError
          ("Argument map missing or malformed") none])
    ∧ (fl_value_lookup_string (some args) ("options") = some (FlValue.vmap m) →
        ((fl_value_lookup_string (some (FlValue.vmap m)) ("authenticationRequired")
              = some (FlValue.vbool true) →
            (biometric_storage_plugin_handle_method_call ("init") args).responses =
              [FlMethodResponse.error kBadArgumentsError
                ("Linux plugin only supports non-authenticated secure storage") none])
          ∧ ((fl_value_lookup_string (some (FlValue.vmap m)) ("authenticationRequired")
                = some (FlValue.vbool false)
              ∨ fl_value_lookup_string (some (FlValue.vmap m)) ("authenticationRequired")
                = none) →
            (biometric_storage_plugin_handle_method_call ("init") args).responses =
              [FlMethodResponse.success (FlValue.vbool true)]))) := by
  refine ⟨fun h => ?_, fun hm => ⟨fun ht => ?_, fun hf => ?_⟩⟩
  · simp [biometric_storage_plugin_handle_method_call, handleInit, h]
  · simp [biometric_storage_plugin_handle_method_call, handleInit, hm, ht,
      fl_value_get_type, fl_value_get_bool]
  · rcases hf with hf | hf <;>
      simp [biometric_storage_plugin_handle_method_call, handleInit, hm, hf,
        fl_value_get_type, fl_value_get_bool]

/-- Witness for C3 at four concrete argument maps: options absent,
authenticationRequired true, authenticationRequired false, and
authenticationRequired absent. -/
theorem init_guard_authentication_required_witness :
    (biometric_storage_plugin_handle_method_call ("init") FlValue.vnull).responses =
      [FlMethodResponse.error kBadArgumentsError
        ("Argument map missing or malformed") none]
    ∧ (biometric_storage_plugin_handle_method_call ("init")
        (FlValue.vmap [("options",
          FlValue.vmap [("authenticationRequired", FlValue.vbool true)])])).responses =
      [FlMethodResponse.error kBadArgumentsError
        ("Linux plugin only supports non-authenticated secure storage") none]
    ∧ (biometric_storage_plugin_handle_method_call ("init")
        (FlValue.vmap [("options",
          FlValue.vmap [("authenticationRequired", FlValue.vbool false)])])).responses =
      [FlMethodResponse.success (FlValue.vbool true)]
    ∧ (biometric_storage_plugin_handle_method_call ("init")
        (FlValue.vmap [("options", FlValue.vmap [])])).responses =
      [FlMethodResponse.success (FlValue.vbool true)] :=
  ⟨(init_guard_authentication_required FlValue.vnull []).1 (by decide),
   ((init_guard_authentication_required
      (FlValue.vmap [("options",
        FlValue.vmap [("authenticationRequired", FlValue.vbool true)])])
      [("authenticationRequired", FlValue.vbool true)]).2 rfl).1 rfl,
   ((init_guard_authentication_required
      (FlValue.vmap [("options",
        FlValue.vmap [("authenticationRequired", FlValue.vbool false)])])
      [("authenticationRequired", FlValue.vbool false)]).2 rfl).2 (Or.inl rfl),
   ((init_guard_authentication_required
      (FlValue.vmap [("options", FlValue.vmap [])]) []).2 rfl).2 (Or.inr rfl)⟩

/-- C8: every backend failure during store, lookup or clear is answered
with an error in the "Security Access Error" category whose
human-readable message embeds the context message, the backend native
message, its numeric code and its domain identifier, whose details
payload is the map with keys domain, code and message, and whose same
message text is logged as a warning. -/
theorem error_translation_shape (e : GError) :
    ((on_password_stored (Except.error e)).responses =
      [FlMethodResponse.error kSecurityAccessError
        ("Failed to store secret: " ++ e.message ++ " (" ++ toString e.code
          ++ ") (" ++ e.domain ++ ")")
        (some (FlValue.vmap
          [("domain", FlValue.vstring e.domain),
           ("code", FlValue.vint e.code),
           ("message", FlValue.vstring e.message)]))]
      ∧ (on_password_stored (Except.error e)).warnings =
        ["Failed to store secret: " ++ e.message ++ " (" ++ toString e.code
          ++ ") (" ++ e.domain ++ ")"])
    ∧ ((on_password_lookup (Except.error e)).responses =
      [FlMethodResponse.error kSecurityAccessError
        ("Failed to lookup secret: " ++ e.message ++ " (" ++ toString e.code
          ++ ") (" ++ e.domain ++ ")")
        (some (FlValue.vmap
          [("domain", FlValue.vstring e.domain),
           ("code", FlValue.vint e.code),
           ("message", FlValue.vstring e.message)]))]
      ∧ (on_password_lookup (Except.error e)).warnings =
        ["Failed to lookup secret: " ++ e.message ++ " (" ++ toString e.code
          ++ ") (" ++ e.domain ++ ")"])
    ∧ ((on_password_cleared (Except.error e)).responses =
      [FlMethodResponse.error kSecurityAccessError
        ("Failed to delete secret: " ++ e.message ++ " (" ++ toString e.code
          ++ ") (" ++ e.domain ++ ")")
        (some (FlValue.vmap
          [("domain", FlValue.vstring e.domain),
           ("code", FlValue.vint e.code),
           ("message", FlValue.vstring e.message)]))]
      ∧ (on_password_cleared (Except.error e)).warnings =
        ["Failed to delete secret: " ++ e.message ++ " (" ++ toString e.code
          ++ ") (" ++ e.domain ++ ")"]) :=
  ⟨⟨rfl, rfl⟩, ⟨rfl, rfl⟩, ⟨rfl, rfl⟩⟩

/-- C10: canAuthenticate, init (with any arguments, succeeding or
failing), and any unrecognized operation name issue no backend call,
leave the stored secrets unchanged, and receive exactly one response
computed synchronously from the method name and arguments alone. -/
theorem sync_ops_no_backend_effect (st : SecretStore) (args : FlValue) (method : String)
    (h : method = "canAuthenticate" ∨ method = "init" ∨
         (method ≠ "canAuthenticate" ∧ method ≠ "init" ∧ method ≠ "write"
          ∧ method ≠ "read" ∧ method ≠ "delete")) :
    (biometric_storage_plugin_handle_method_call method args).call = none
    ∧ (biometric_storage_plugin_handle_method_call method args).refs = 0
    ∧ (run_method_call st method args).1 = st
    ∧ (run_method_call st method args).2
        = (biometric_storage_plugin_handle_method_call method args).responses
    ∧ (biometric_storage_plugin_handle_method_call method args).responses.length = 1 := by
  rcases h with rfl | rfl | ⟨h1, h2, h3, h4, h5⟩
  · exact ⟨rfl, rfl, rfl, rfl, rfl⟩
  · exact ⟨rfl, rfl, rfl, rfl, rfl⟩
  · simp [run_method_call, biometric_storage_plugin_handle_method_call,
      kMethodWrite, kMethodRead, kMethodDelete, h1, h2, h3, h4, h5]

/-- Witness for C10 at the unrecognized operation name "unknownOp" on
the empty backend. -/
theorem sync_ops_no_backend_effect_witness :
    (biometric_storage_plugin_handle_method_call ("unknownOp") FlValue.vnull).call = none
    ∧ (biometric_storage_plugin_handle_method_call ("unknownOp") FlValue.vnull).refs = 0
    ∧ (run_method_call [] ("unknownOp") FlValue.vnull).1 = []
    ∧ (run_method_call [] ("unknownOp") FlValue.vnull).2
        = (biometric_storage_plugin_handle_method_call ("unknownOp") FlValue.vnull).responses
    ∧ (biometric_storage_plugin_handle_method_call ("unknownOp") FlValue.vnull).responses.length
        = 1 :=
  sync_ops_no_backend_effect [] FlValue.vnull ("unknownOp")
    (Or.inr (Or.inr ⟨by decide, by decide, by decide, by decide, by decide⟩))

end BiometricStorage
